import Mathlib

/-!
Verification of the multifit model-evaluation core.

Shallow embedding of the evaluator and fitter code:

* `ModelEvaluator.setExposureList`, `ModelEvaluator.computeModelImage`,
  `ModelEvaluator.computeLinearParameterDerivative`,
  `ModelEvaluator.computeNonlinearParameterDerivative`
  follow `src/ModelEvaluator.cc`.
* `ChisqFunction` (the objective adapter), `MinuitAnalyticFitter.apply` and
  `MinuitNumericFitter.apply` follow the fitter translation unit.

Pixels are modelled as exact rationals.  The external square-root routine used
to derive `sigma` from the variance vector is passed in as a function
parameter, and the external Minuit2 minimizer is modelled as an abstract
query strategy that interacts with the objective through its value and
gradient calls.
-/

/-- A per-frame model projection: pixel count of its footprint together with
the functions computing, from the current (linear, nonlinear) parameters, the
model image restricted to the footprint and the two derivative matrices
(stored as lists of columns, each column of length `nPix`). -/
structure ModelProjection where
  nPix : ℕ
  image : List ℚ → List ℚ → List ℚ
  dLinear : List ℚ → List ℚ → List (List ℚ)
  dNonlinear : List ℚ → List ℚ → List (List ℚ)

/-- One candidate exposure as seen by `setExposureList`: the contributing
footprint pixel count (after clipping and masking, which are external), the
compressed data and variance arrays over that footprint, and the projection
the model factory would build for this exposure. -/
structure Exposure where
  npix : ℕ
  data : List ℚ
  variance : List ℚ
  image : List ℚ → List ℚ → List ℚ
  dLinear : List ℚ → List ℚ → List (List ℚ)
  dNonlinear : List ℚ → List ℚ → List (List ℚ)

/-- The projection made for an accepted exposure (`_model->makeProjection`). -/
def Exposure.toProjection (e : Exposure) : ModelProjection :=
  { nPix := e.npix, image := e.image, dLinear := e.dLinear, dNonlinear := e.dNonlinear }

/-- Bit of `_validProducts` recording a fresh model image. -/
def MODEL_IMAGE : ℕ := 1

/-- Bit of `_validProducts` recording a fresh linear-parameter derivative. -/
def LINEAR_PARAMETER_DERIVATIVE : ℕ := 2

/-- Bit of `_validProducts` recording a fresh nonlinear-parameter derivative. -/
def NONLINEAR_PARAMETER_DERIVATIVE : ℕ := 4

/-- State of a `ModelEvaluator`: dimensions, the accepted projections, the
flattened buffers, the cached products with their validity bitmask, and a
counter of projection compute invocations (used to observe laziness). -/
structure ModelEvaluator where
  nLinear : ℕ
  nNonlinear : ℕ
  nMinPix : ℕ
  projectionList : List ModelProjection
  dataVector : List ℚ
  varianceVector : List ℚ
  sigma : List ℚ
  slices : List (ℕ × ℕ)
  linearParams : List ℚ
  nonlinearParams : List ℚ
  validProducts : ℕ
  modelImage : List ℚ
  linearDerivative : List (List ℚ)
  nonlinearDerivative : List (List ℚ)
  projInvocations : ℕ

/-- The filtering loop of `setExposureList`: walk the exposure list, keep an
exposure exactly when its footprint pixel count is strictly greater than
`_nMinPix`, building the projection list, the good-exposure list and the
running pixel sum. -/
def buildAccepted (nMinPix : ℕ) : List Exposure → List ModelProjection × List Exposure × ℕ
  | [] => ([], [], 0)
  | e :: rest =>
    let r := buildAccepted nMinPix rest
    if nMinPix < e.npix then (e.toProjection :: r.1, e :: r.2.1, e.npix + r.2.2)
    else r

/-- The buffer-slice assignment loop of `setExposureList`: starting from
`pixelStart`, hand each projection the half-open range
`[pixelStart, pixelStart + nPix)` and advance `pixelStart` to the end. -/
def assignSlices (start : ℕ) : List ModelProjection → List (ℕ × ℕ)
  | [] => []
  | p :: rest => (start, start + p.nPix) :: assignSlices (start + p.nPix) rest

/-- `ModelEvaluator::setExposureList`: reset the projection list and validity
flags, filter the exposures by the strict pixel threshold, concatenate the
accepted data and variance arrays into the flat buffers, assign disjoint
buffer slices in order, and derive `sigma` by applying the external
square-root routine to the variance vector. -/
def ModelEvaluator.setExposureList (ev : ModelEvaluator) (sqrtFn : ℚ → ℚ)
    (exposureList : List Exposure) : ModelEvaluator :=
  let acc := buildAccepted ev.nMinPix exposureList
  let varV := (acc.2.1.map Exposure.variance).flatten
  { ev with
    projectionList := acc.1
    validProducts := 0
    dataVector := (acc.2.1.map Exposure.data).flatten
    varianceVector := varV
    sigma := varV.map sqrtFn
    slices := assignSlices 0 acc.1
    modelImage := []
    linearDerivative := []
    nonlinearDerivative := []
    projInvocations := ev.projInvocations }

/-- Concatenation of per-projection column matrices along the pixel axis:
column `j` of the result is the concatenation of the projections' columns
`j` (the shared buffer is written slice by sliced row range). -/
def colsConcat (mats : List (List (List ℚ))) (ncols : ℕ) : List (List ℚ) :=
  (List.range ncols).map fun j => (mats.map fun m => m.getD j []).flatten

/-- The raw model image: concatenation of every projection's model image at
the current parameters (each projection writes its own buffer slice). -/
def ModelEvaluator.rawModelImage (ev : ModelEvaluator) : List ℚ :=
  (ev.projectionList.map fun p => p.image ev.linearParams ev.nonlinearParams).flatten

/-- The normalized model image: raw model image divided elementwise by sigma. -/
def ModelEvaluator.normModelImage (ev : ModelEvaluator) : List ℚ :=
  List.zipWith (· / ·) ev.rawModelImage ev.sigma

/-- `ModelEvaluator::computeModelImage`: when the MODEL_IMAGE bit is clear,
invoke every projection, normalize by sigma, cache and set the bit; otherwise
return the cached vector unchanged. -/
def ModelEvaluator.computeModelImage (ev : ModelEvaluator) : List ℚ × ModelEvaluator :=
  if ev.validProducts &&& MODEL_IMAGE = 0 then
    (ev.normModelImage,
     { ev with
        modelImage := ev.normModelImage
        validProducts := ev.validProducts ||| MODEL_IMAGE
        projInvocations := ev.projInvocations + ev.projectionList.length })
  else (ev.modelImage, ev)

/-- The raw linear-parameter derivative matrix (list of `nLinear` columns). -/
def ModelEvaluator.rawLinearDeriv (ev : ModelEvaluator) : List (List ℚ) :=
  colsConcat (ev.projectionList.map fun p => p.dLinear ev.linearParams ev.nonlinearParams)
    ev.nLinear

/-- The normalization loop of `computeLinearParameterDerivative`: the source
loop bound is `getLinearParameterSize()`, so exactly the columns with index
below `nLinear` are divided by sigma. -/
def ModelEvaluator.normLinearDeriv (ev : ModelEvaluator) : List (List ℚ) :=
  ev.rawLinearDeriv.mapIdx fun i c =>
    if i < ev.nLinear then List.zipWith (· / ·) c ev.sigma else c

/-- `ModelEvaluator::computeLinearParameterDerivative`: when the bit is clear,
invoke every projection, divide the columns by sigma, cache and set the bit. -/
def ModelEvaluator.computeLinearParameterDerivative (ev : ModelEvaluator) :
    List (List ℚ) × ModelEvaluator :=
  if ev.validProducts &&& LINEAR_PARAMETER_DERIVATIVE = 0 then
    (ev.normLinearDeriv,
     { ev with
        linearDerivative := ev.normLinearDeriv
        validProducts := ev.validProducts ||| LINEAR_PARAMETER_DERIVATIVE
        projInvocations := ev.projInvocations + ev.projectionList.length })
  else (ev.linearDerivative, ev)

/-- The raw nonlinear-parameter derivative matrix (list of `nNonlinear`
columns). -/
def ModelEvaluator.rawNonlinearDeriv (ev : ModelEvaluator) : List (List ℚ) :=
  colsConcat (ev.projectionList.map fun p => p.dNonlinear ev.linearParams ev.nonlinearParams)
    ev.nNonlinear

/-- The normalization loop of `computeNonlinearParameterDerivative`: the
source loop bound at ModelEvaluator.cc line 219 is `getLinearParameterSize()`
(not the nonlinear size), so exactly the columns with index below `nLinear`
are divided by sigma. -/
def ModelEvaluator.normNonlinearDeriv (ev : ModelEvaluator) : List (List ℚ) :=
  ev.rawNonlinearDeriv.mapIdx fun i c =>
    if i < ev.nLinear then List.zipWith (· / ·) c ev.sigma else c

/-- `ModelEvaluator::computeNonlinearParameterDerivative`: when the bit is
clear, invoke every projection, run the (buggy) normalization loop, cache and
set the bit. -/
def ModelEvaluator.computeNonlinearParameterDerivative (ev : ModelEvaluator) :
    List (List ℚ) × ModelEvaluator :=
  if ev.validProducts &&& NONLINEAR_PARAMETER_DERIVATIVE = 0 then
    (ev.normNonlinearDeriv,
     { ev with
        nonlinearDerivative := ev.normNonlinearDeriv
        validProducts := ev.validProducts ||| NONLINEAR_PARAMETER_DERIVATIVE
        projInvocations := ev.projInvocations + ev.projectionList.length })
  else (ev.nonlinearDerivative, ev)

/-- Modelled from the spec: `ModelEvaluator::setLinearParameters` is not under
src; per the spec it copies the caller-supplied values into the tracked
linear-parameter storage and clears all three validity flags unconditionally. -/
def ModelEvaluator.setLinearParameters (ev : ModelEvaluator) (v : List ℚ) : ModelEvaluator :=
  { ev with linearParams := v, validProducts := 0 }

/-- Modelled from the spec: `ModelEvaluator::setNonlinearParameters` is not
under src; per the spec it copies the caller-supplied values into the tracked
nonlinear-parameter storage and clears all three validity flags
unconditionally. -/
def ModelEvaluator.setNonlinearParameters (ev : ModelEvaluator) (v : List ℚ) : ModelEvaluator :=
  { ev with nonlinearParams := v, validProducts := 0 }

/-- Modelled from the spec: `ModelEvaluator::getWeightedData` is not under
src; per the spec the weighted data vector is the observed data divided
elementwise by the per-pixel noise standard deviation. -/
def ModelEvaluator.getWeightedData (ev : ModelEvaluator) : List ℚ :=
  List.zipWith (· / ·) ev.dataVector ev.sigma

/-- Dot product of two pixel vectors. -/
def dotProd (xs ys : List ℚ) : ℚ := (List.zipWith (· * ·) xs ys).sum

/-- Elementwise difference of two pixel vectors. -/
def subVec (xs ys : List ℚ) : List ℚ := List.zipWith (· - ·) xs ys

/-- State of the anonymous-namespace `ChisqFunction` objective adapter: the
dirty flag, the wrapped evaluator, and the weighted data vector `_measured`
captured from the evaluator at construction. -/
structure ChisqFunction where
  dirty : Bool
  evaluator : ModelEvaluator
  measured : List ℚ

/-- The `ChisqFunction` constructor: dirty starts true and `_measured` is the
weighted data captured once from the evaluator. -/
def ChisqFunction.construct (ev : ModelEvaluator) : ChisqFunction :=
  { dirty := true, evaluator := ev, measured := ev.getWeightedData }

/-- `ChisqFunction::checkParams`, translated with the source control flow
kept intact: when the state is already dirty the function returns at once;
otherwise each comparison loop body reads
`if(*iNew != *iOld) _dirty = true; return;` where the `return` is not inside
the `if` (the braces are missing in the source), so any executed loop halts
the whole function after its first iteration.  The final `_dirty = false`
line is reached only when both loops have zero iterations. -/
def ChisqFunction.checkParams (s : ChisqFunction) (params : List ℚ) : ChisqFunction :=
  if s.dirty = true then s
  else if 0 < s.evaluator.nLinear then
    if params.getD 0 0 ≠ s.evaluator.linearParams.getD 0 0 then { s with dirty := true } else s
  else if 0 < s.evaluator.nNonlinear then
    if params.getD 0 0 ≠ s.evaluator.nonlinearParams.getD 0 0 then { s with dirty := true } else s
  else { s with dirty := false }

/-- Pushing a parameter vector into the evaluator: the first `nLinear`
entries through `setLinearParameters`, the next `nNonlinear` entries through
`setNonlinearParameters` (the fitter passes `&params[0]` and
`&params[nLinear]`). -/
def pushParams (ev : ModelEvaluator) (params : List ℚ) : ModelEvaluator :=
  (ev.setLinearParameters (params.take ev.nLinear)).setNonlinearParameters
    ((params.drop ev.nLinear).take ev.nNonlinear)

/-- `ChisqFunction::computeValue`: run `checkParams`, push the parameters into
the evaluator when dirty, compute the model image and return half the squared
norm of the residual against the captured `_measured` vector. -/
def ChisqFunction.computeValue (s : ChisqFunction) (params : List ℚ) : ℚ × ChisqFunction :=
  let s1 := s.checkParams params
  let ev1 := if s1.dirty = true then pushParams s1.evaluator params else s1.evaluator
  let r := ev1.computeModelImage
  let residual := subVec s1.measured r.1
  ((1 / 2 : ℚ) * dotProd residual residual, { s1 with evaluator := r.2 })

/-- `ChisqFunction::computeGradient`: run `checkParams`, push the parameters
when dirty, compute the model image and both derivative matrices, and return
the concatenation of minus the transposed derivatives applied to the
residual. -/
def ChisqFunction.computeGradient (s : ChisqFunction) (params : List ℚ) :
    List ℚ × ChisqFunction :=
  let s1 := s.checkParams params
  let ev1 := if s1.dirty = true then pushParams s1.evaluator params else s1.evaluator
  let rI := ev1.computeModelImage
  let rL := rI.2.computeLinearParameterDerivative
  let rN := rL.2.computeNonlinearParameterDerivative
  let residual := subVec s1.measured rI.1
  ((rL.1.map fun c => -(dotProd c residual)) ++ (rN.1.map fun c => -(dotProd c residual)),
   { s1 with evaluator := rN.2 })

/-- The packaged minimization outcome (`MinuitFitterResult`). -/
structure MinuitFitterResult where
  parameters : List ℚ
  value : ℚ
  converged : Bool

/-- Fitter configuration read from the policy. -/
structure FitterPolicy where
  checkGradient : Bool
  strategy : ℕ
  iterationMax : ℕ
  tolerance : ℚ

/-- A query the external minimizer sends to the objective adapter. -/
inductive MinQuery
  | val : List ℚ → MinQuery
  | grad : List ℚ → MinQuery

/-- The adapter response to a minimizer query. -/
inductive MinResponse
  | val : ℚ → MinResponse
  | grad : List ℚ → MinResponse

/-- Dispatch one minimizer query through the stateful objective adapter. -/
def respond (s : ChisqFunction) : MinQuery → MinResponse × ChisqFunction
  | MinQuery.val p =>
    let r := s.computeValue p
    (MinResponse.val r.1, r.2)
  | MinQuery.grad p =>
    let r := s.computeGradient p
    (MinResponse.grad r.1, r.2)

/-- The external Minuit2 migrad minimizer, modelled abstractly: from the
history of responses it either asks another query or stops, and the packaged
result is a function of the response history.  The search itself is out of
scope; only its interaction pattern with the adapter is modelled. -/
structure MigradStrategy where
  step : List MinResponse → Option MinQuery
  finish : List MinResponse → MinuitFitterResult

/-- Run the minimizer against the stateful adapter, bounded by the configured
iteration limit. -/
def runMigrad (mig : MigradStrategy) : ℕ → ChisqFunction → List MinResponse →
    MinuitFitterResult × ChisqFunction
  | 0, s, hist => (mig.finish hist, s)
  | Nat.succ fuel, s, hist =>
    match mig.step hist with
    | none => (mig.finish hist, s)
    | some q =>
      let r := respond s q
      runMigrad mig fuel r.2 (hist ++ [r.1])

/-- Fold the value calls made by the external finite-difference gradient
calculator over the adapter state. -/
def runValues (s : ChisqFunction) : List (List ℚ) → ChisqFunction
  | [] => s
  | p :: rest => runValues (s.computeValue p).2 rest

/-- The exception message of the initial-error length check. -/
def lengthErrMsg : String := "Number of model parameters not equal to length of error vector"

/-- `MinuitAnalyticFitter::apply`: build the objective adapter, check that the
initial-error vector has exactly `nLinear + nNonlinear` entries and raise
`InvalidParameterException` otherwise, build the initial parameter vector from
the evaluator, optionally run the diagnostic numeric-versus-analytic gradient
comparison (one value call at the initial point, the finite-difference probe
value calls `nq`, then one analytic gradient call), and run migrad.  The
returned pair carries the result and the final evaluator state. -/
def MinuitAnalyticFitter.apply (policy : FitterPolicy) (mig : MigradStrategy)
    (nq : List (List ℚ)) (evaluator : ModelEvaluator) (initialErrors : List ℚ) :
    Except String MinuitFitterResult × ModelEvaluator :=
  let fn := ChisqFunction.construct evaluator
  let nParams := evaluator.nLinear + evaluator.nNonlinear
  if initialErrors.length ≠ nParams then (Except.error lengthErrMsg, evaluator)
  else
    let initialParams := evaluator.linearParams ++ evaluator.nonlinearParams
    let s1 :=
      if policy.checkGradient then
        let sA := (fn.computeValue initialParams).2
        let sB := runValues sA nq
        (sB.computeGradient initialParams).2
      else fn
    let r := runMigrad mig policy.iterationMax s1 []
    (Except.ok r.1, r.2.evaluator)

/-- `MinuitNumericFitter::apply`: same shape without the gradient interface
and without the diagnostic block. -/
def MinuitNumericFitter.apply (policy : FitterPolicy) (mig : MigradStrategy)
    (evaluator : ModelEvaluator) (initialErrors : List ℚ) :
    Except String MinuitFitterResult × ModelEvaluator :=
  let fn := ChisqFunction.construct evaluator
  let nParams := evaluator.nLinear + evaluator.nNonlinear
  if initialErrors.length ≠ nParams then (Except.error lengthErrMsg, evaluator)
  else
    let r := runMigrad mig policy.iterationMax fn []
    (Except.ok r.1, r.2.evaluator)

/-- Total pixel count of a projection list. -/
def sumPix (ps : List ModelProjection) : ℕ := (ps.map ModelProjection.nPix).sum

/-! ### Bitmask helper lemmas -/

lemma nat_or_one_and_one (v : ℕ) : (v ||| 1) &&& 1 = 1 := by
  apply Nat.eq_of_testBit_eq
  intro i
  rw [Nat.testBit_and, Nat.testBit_or]
  cases Nat.testBit v i <;> cases Nat.testBit 1 i <;> rfl

lemma nat_or_one_and_two (v : ℕ) : (v ||| 1) &&& 2 = v &&& 2 := by
  apply Nat.eq_of_testBit_eq
  intro i
  rw [Nat.testBit_and, Nat.testBit_and, Nat.testBit_or]
  rcases i with _ | j
  · simp
  · have h1 : Nat.testBit 1 (j + 1) = false := by
      rw [Nat.testBit_add_one]
      simp
    simp [h1]

lemma nat_or_one_and_four (v : ℕ) : (v ||| 1) &&& 4 = v &&& 4 := by
  apply Nat.eq_of_testBit_eq
  intro i
  rw [Nat.testBit_and, Nat.testBit_and, Nat.testBit_or]
  rcases i with _ | j
  · simp
  · have h1 : Nat.testBit 1 (j + 1) = false := by
      rw [Nat.testBit_add_one]
      simp
    simp [h1]

/-! ### Branch lemmas for the three compute operations -/

/-- The evaluator state left by a fresh `computeModelImage` computation. -/
def afterImage (ev : ModelEvaluator) : ModelEvaluator :=
  { ev with
     modelImage := ev.normModelImage
     validProducts := ev.validProducts ||| MODEL_IMAGE
     projInvocations := ev.projInvocations + ev.projectionList.length }

/-- The evaluator state left by a fresh `computeLinearParameterDerivative`. -/
def afterLinear (ev : ModelEvaluator) : ModelEvaluator :=
  { ev with
     linearDerivative := ev.normLinearDeriv
     validProducts := ev.validProducts ||| LINEAR_PARAMETER_DERIVATIVE
     projInvocations := ev.projInvocations + ev.projectionList.length }

/-- The evaluator state left by a fresh `computeNonlinearParameterDerivative`. -/
def afterNonlinear (ev : ModelEvaluator) : ModelEvaluator :=
  { ev with
     nonlinearDerivative := ev.normNonlinearDeriv
     validProducts := ev.validProducts ||| NONLINEAR_PARAMETER_DERIVATIVE
     projInvocations := ev.projInvocations + ev.projectionList.length }

lemma computeModelImage_clear (ev : ModelEvaluator)
    (h : ev.validProducts &&& MODEL_IMAGE = 0) :
    ev.computeModelImage = (ev.normModelImage, afterImage ev) := by
  unfold ModelEvaluator.computeModelImage afterImage
  rw [if_pos h]

lemma computeModelImage_cached (ev : ModelEvaluator)
    (h : ¬ ev.validProducts &&& MODEL_IMAGE = 0) :
    ev.computeModelImage = (ev.modelImage, ev) := by
  unfold ModelEvaluator.computeModelImage
  rw [if_neg h]

lemma computeLinearDeriv_clear (ev : ModelEvaluator)
    (h : ev.validProducts &&& LINEAR_PARAMETER_DERIVATIVE = 0) :
    ev.computeLinearParameterDerivative = (ev.normLinearDeriv, afterLinear ev) := by
  unfold ModelEvaluator.computeLinearParameterDerivative afterLinear
  rw [if_pos h]

lemma computeLinearDeriv_cached (ev : ModelEvaluator)
    (h : ¬ ev.validProducts &&& LINEAR_PARAMETER_DERIVATIVE = 0) :
    ev.computeLinearParameterDerivative = (ev.linearDerivative, ev) := by
  unfold ModelEvaluator.computeLinearParameterDerivative
  rw [if_neg h]

lemma computeNonlinearDeriv_clear (ev : ModelEvaluator)
    (h : ev.validProducts &&& NONLINEAR_PARAMETER_DERIVATIVE = 0) :
    ev.computeNonlinearParameterDerivative = (ev.normNonlinearDeriv, afterNonlinear ev) := by
  unfold ModelEvaluator.computeNonlinearParameterDerivative afterNonlinear
  rw [if_pos h]

lemma computeNonlinearDeriv_cached (ev : ModelEvaluator)
    (h : ¬ ev.validProducts &&& NONLINEAR_PARAMETER_DERIVATIVE = 0) :
    ev.computeNonlinearParameterDerivative = (ev.nonlinearDerivative, ev) := by
  unfold ModelEvaluator.computeNonlinearParameterDerivative
  rw [if_neg h]

/-! ### Frame filtering (C4) -/

lemma buildAccepted_eq (t : ℕ) (exps : List Exposure) :
    buildAccepted t exps =
      ((exps.filter fun e => t < e.npix).map Exposure.toProjection,
       exps.filter fun e => t < e.npix,
       ((exps.filter fun e => t < e.npix).map Exposure.npix).sum) := by
  induction exps with
  | nil => rfl
  | cons e rest ih =>
    by_cases h : t < e.npix
    · simp [buildAccepted, List.filter_cons, h, ih]
    · simp [buildAccepted, List.filter_cons, h, ih]

/-- Claim C4: during frame-set assignment a candidate frame is accepted if
and only if its contributing pixel count is strictly greater than the
configured minimum threshold; a frame at the threshold contributes nothing to
the projection list, the data and variance buffers or the pixel sum, and a
frame one pixel above the threshold is accepted. -/
theorem claim4_threshold_strict (ev : ModelEvaluator) (sq : ℚ → ℚ) (exps : List Exposure) :
    (ev.setExposureList sq exps).projectionList
      = (exps.filter fun e => ev.nMinPix < e.npix).map Exposure.toProjection ∧
    (ev.setExposureList sq exps).dataVector
      = ((exps.filter fun e => ev.nMinPix < e.npix).map Exposure.data).flatten ∧
    (ev.setExposureList sq exps).varianceVector
      = ((exps.filter fun e => ev.nMinPix < e.npix).map Exposure.variance).flatten ∧
    (buildAccepted ev.nMinPix exps).2.2
      = ((exps.filter fun e => ev.nMinPix < e.npix).map Exposure.npix).sum ∧
    ∀ e : Exposure,
      (e ∈ (buildAccepted ev.nMinPix exps).2.1 ↔ e ∈ exps ∧ ev.nMinPix < e.npix) := by
  refine ⟨?_, ?_, ?_, ?_, ?_⟩
  · simp [ModelEvaluator.setExposureList, buildAccepted_eq]
  · simp [ModelEvaluator.setExposureList, buildAccepted_eq]
  · simp [ModelEvaluator.setExposureList, buildAccepted_eq]
  · simp [buildAccepted_eq]
  · intro e
    simp [buildAccepted_eq, List.mem_filter]

/-! ### Concrete instances used by the evidence theorems and witnesses -/

/-- A one-pixel projection with one linear and two nonlinear parameters. -/
def projC1 : ModelProjection :=
  { nPix := 1
    image := fun _ _ => [6]
    dLinear := fun _ _ => [[8]]
    dNonlinear := fun _ _ => [[8], [8]] }

/-- Evaluator with `nLinear = 1 < nNonlinear = 2` and `sigma = [2]`, after a
frame-set assignment and a parameter write (all validity flags clear). -/
def evC1 : ModelEvaluator :=
  { nLinear := 1
    nNonlinear := 2
    nMinPix := 0
    projectionList := [projC1]
    dataVector := [6]
    varianceVector := [4]
    sigma := [2]
    slices := [(0, 1)]
    linearParams := [1]
    nonlinearParams := [1, 1]
    validProducts := 0
    modelImage := []
    linearDerivative := []
    nonlinearDerivative := []
    projInvocations := 0 }

/-- Claim C1, evidence of the code defect: on `evC1` the linear derivative
column is divided by sigma as the spec demands, but the nonlinear derivative
normalization loop runs only over the first `nLinear = 1` of the
`nNonlinear = 2` columns (ModelEvaluator.cc line 219), so column 1 comes back
as the raw column `[8]` instead of the weighted `[8 / 2] = [4]`. -/
theorem claim1_nonlinear_column_not_weighted :
    (evC1.computeLinearParameterDerivative).1 = [[4]] ∧
    evC1.rawNonlinearDeriv = [[8], [8]] ∧
    (evC1.computeNonlinearParameterDerivative).1 = [[4], [8]] ∧
    List.zipWith (· / ·) [(8 : ℚ)] evC1.sigma = [4] := by
  refine ⟨?_, ?_, ?_, ?_⟩
  · rw [computeLinearDeriv_clear evC1 (by decide)]
    norm_num [ModelEvaluator.normLinearDeriv, ModelEvaluator.rawLinearDeriv, colsConcat,
      evC1, projC1, List.range_succ]
  · norm_num [ModelEvaluator.rawNonlinearDeriv, colsConcat, evC1, projC1, List.range_succ]
  · rw [computeNonlinearDeriv_clear evC1 (by decide)]
    norm_num [ModelEvaluator.normNonlinearDeriv, ModelEvaluator.rawNonlinearDeriv, colsConcat,
      evC1, projC1, List.range_succ]
  · norm_num [evC1]

/-- Evaluator with two linear parameters `[1, 2]` and no nonlinear
parameters, used to exercise the comparison loop of `checkParams`. -/
def evC2 : ModelEvaluator :=
  { nLinear := 2
    nNonlinear := 0
    nMinPix := 0
    projectionList := []
    dataVector := []
    varianceVector := []
    sigma := []
    slices := []
    linearParams := [1, 2]
    nonlinearParams := []
    validProducts := 0
    modelImage := []
    linearDerivative := []
    nonlinearDerivative := []
    projInvocations := 0 }

/-- Objective adapter state over `evC2` whose dirty flag is clear, so that
`checkParams` actually enters its comparison loops. -/
def sC2 : ChisqFunction :=
  { dirty := false, evaluator := evC2, measured := [] }

/-- Claim C2, evidence of the code defect: with stored linear parameters
`[1, 2]` and incoming parameters `[1, 3]`, the first elements agree (so no
difference has been found yet) and the second elements differ, yet
`checkParams` returns with the dirty flag still false: the unconditional
`return` in the loop body (Frame.h comparison loops, missing braces) skips
the remaining comparison instead of examining it as the claim requires. -/
theorem claim2_comparison_loop_returns_early :
    ([1, 3] : List ℚ).getD 0 0 = evC2.linearParams.getD 0 0 ∧
    ([1, 3] : List ℚ).getD 1 0 ≠ evC2.linearParams.getD 1 0 ∧
    (sC2.checkParams [1, 3]).dirty = false := by
  refine ⟨?_, ?_, ?_⟩
  · norm_num [evC2]
  · norm_num [evC2]
  · norm_num [ChisqFunction.checkParams, sC2, evC2]

/-! ### Independent validity flags (C6) -/

/-- Claim C6: `computeModelImage` sets only the MODEL_IMAGE validity flag,
leaves both derivative validity bits exactly as they were, and does not write
the linear or nonlinear derivative buffers. -/
theorem claim6_modelImage_sets_only_its_flag (ev : ModelEvaluator) :
    ((ev.computeModelImage).2.validProducts &&& MODEL_IMAGE ≠ 0) ∧
    ((ev.computeModelImage).2.validProducts &&& LINEAR_PARAMETER_DERIVATIVE
        = ev.validProducts &&& LINEAR_PARAMETER_DERIVATIVE) ∧
    ((ev.computeModelImage).2.validProducts &&& NONLINEAR_PARAMETER_DERIVATIVE
        = ev.validProducts &&& NONLINEAR_PARAMETER_DERIVATIVE) ∧
    ((ev.computeModelImage).2.linearDerivative = ev.linearDerivative) ∧
    ((ev.computeModelImage).2.nonlinearDerivative = ev.nonlinearDerivative) := by
  by_cases h : ev.validProducts &&& MODEL_IMAGE = 0
  · rw [computeModelImage_clear ev h]
    refine ⟨?_, ?_, ?_, rfl, rfl⟩
    · show (ev.validProducts ||| MODEL_IMAGE) &&& MODEL_IMAGE ≠ 0
      unfold MODEL_IMAGE
      rw [nat_or_one_and_one]
      exact one_ne_zero
    · show (ev.validProducts ||| MODEL_IMAGE) &&& LINEAR_PARAMETER_DERIVATIVE
        = ev.validProducts &&& LINEAR_PARAMETER_DERIVATIVE
      unfold MODEL_IMAGE LINEAR_PARAMETER_DERIVATIVE
      exact nat_or_one_and_two ev.validProducts
    · show (ev.validProducts ||| MODEL_IMAGE) &&& NONLINEAR_PARAMETER_DERIVATIVE
        = ev.validProducts &&& NONLINEAR_PARAMETER_DERIVATIVE
      unfold MODEL_IMAGE NONLINEAR_PARAMETER_DERIVATIVE
      exact nat_or_one_and_four ev.validProducts
  · rw [computeModelImage_cached ev h]
    exact ⟨h, rfl, rfl, rfl, rfl⟩

/-! ### Buffer slice partition (C5) -/

lemma assignSlices_bounds (ps : List ModelProjection) :
    ∀ start : ℕ, ∀ q ∈ assignSlices start ps, start ≤ q.1 ∧ q.1 ≤ q.2 := by
  induction ps with
  | nil => intro start q hq; simp [assignSlices] at hq
  | cons p rest ih =>
    intro start q hq
    rw [assignSlices] at hq
    rcases List.mem_cons.mp hq with h | h
    · subst h
      exact ⟨Nat.le_refl _, Nat.le_add_right _ _⟩
    · have hb := ih (start + p.nPix) q h
      exact ⟨Nat.le_trans (Nat.le_add_right _ _) hb.1, hb.2⟩

lemma assignSlices_pairwise (ps : List ModelProjection) :
    ∀ start : ℕ, List.Pairwise (fun a b : ℕ × ℕ => a.2 ≤ b.1) (assignSlices start ps) := by
  induction ps with
  | nil => intro start; simp [assignSlices]
  | cons p rest ih =>
    intro start
    rw [assignSlices]
    refine List.Pairwise.cons ?_ (ih (start + p.nPix))
    intro q hq
    exact (assignSlices_bounds rest (start + p.nPix) q hq).1

lemma assignSlices_chain (ps : List ModelProjection) :
    ∀ start : ℕ, List.Chain' (fun a b : ℕ × ℕ => a.2 = b.1) (assignSlices start ps) := by
  induction ps with
  | nil => intro start; simp [assignSlices]
  | cons p rest ih =>
    intro start
    rw [assignSlices]
    rw [List.chain'_cons']
    constructor
    · intro b hb
      cases rest with
      | nil => simp [assignSlices] at hb
      | cons p2 rest2 =>
        rw [assignSlices] at hb
        simp only [List.head?_cons, Option.mem_def, Option.some.injEq] at hb
        rw [← hb]
    · exact ih (start + p.nPix)

lemma assignSlices_cover (ps : List ModelProjection) :
    ∀ start k : ℕ,
      ((∃ q ∈ assignSlices start ps, q.1 ≤ k ∧ k < q.2) ↔
        start ≤ k ∧ k < start + sumPix ps) := by
  induction ps with
  | nil => intro start k; simp [assignSlices, sumPix]
  | cons p rest ih =>
    intro start k
    have hsum : sumPix (p :: rest) = p.nPix + sumPix rest := by
      simp [sumPix]
    rw [assignSlices]
    constructor
    · rintro ⟨q, hq, h1, h2⟩
      rcases List.mem_cons.mp hq with h | h
      · subst h
        simp only at h1 h2
        omega
      · have := (ih (start + p.nPix) k).mp ⟨q, h, h1, h2⟩
        omega
    · intro h
      by_cases hk : k < start + p.nPix
      · refine ⟨(start, start + p.nPix), List.mem_cons_self _ _, ?_, ?_⟩
        · exact h.1
        · exact hk
      · have h2 := (ih (start + p.nPix) k).mpr (by omega)
        obtain ⟨q, hq, hh⟩ := h2
        exact ⟨q, List.mem_cons_of_mem _ hq, hh⟩

/-- Claim C5: after frame-set assignment, the buffer slices handed to the
accepted frames in creation order are contiguous (each slice ends where the
next begins), pairwise disjoint, well formed, and their union covers exactly
`[0, N)` where `N` is the sum of the accepted pixel counts. -/
theorem claim5_slices_partition (ev : ModelEvaluator) (sq : ℚ → ℚ) (exps : List Exposure) :
    List.Chain' (fun a b : ℕ × ℕ => a.2 = b.1) (ev.setExposureList sq exps).slices ∧
    List.Pairwise (fun a b : ℕ × ℕ => a.2 ≤ b.1) (ev.setExposureList sq exps).slices ∧
    (∀ q ∈ (ev.setExposureList sq exps).slices, q.1 ≤ q.2) ∧
    (∀ k : ℕ,
      (∃ q ∈ (ev.setExposureList sq exps).slices, q.1 ≤ k ∧ k < q.2) ↔
        k < sumPix (ev.setExposureList sq exps).projectionList) := by
  have hsl : (ev.setExposureList sq exps).slices
      = assignSlices 0 (ev.setExposureList sq exps).projectionList := rfl
  refine ⟨?_, ?_, ?_, ?_⟩
  · rw [hsl]; exact assignSlices_chain _ 0
  · rw [hsl]; exact assignSlices_pairwise _ 0
  · rw [hsl]; intro q hq; exact (assignSlices_bounds _ 0 q hq).2
  · intro k
    rw [hsl]
    have h := assignSlices_cover ((ev.setExposureList sq exps).projectionList) 0 k
    simpa using h

/-! ### Objective adapter: helper lemmas -/

lemma checkParams_of_dirty (s : ChisqFunction) (p : List ℚ) (h : s.dirty = true) :
    s.checkParams p = s := by
  unfold ChisqFunction.checkParams
  rw [if_pos h]

lemma checkParams_evaluator (s : ChisqFunction) (p : List ℚ) :
    (s.checkParams p).evaluator = s.evaluator := by
  unfold ChisqFunction.checkParams
  split
  · rfl
  · split
    · split <;> rfl
    · split
      · split <;> rfl
      · rfl

lemma checkParams_measured (s : ChisqFunction) (p : List ℚ) :
    (s.checkParams p).measured = s.measured := by
  unfold ChisqFunction.checkParams
  split
  · rfl
  · split
    · split <;> rfl
    · split
      · split <;> rfl
      · rfl

lemma pushParams_validProducts (ev : ModelEvaluator) (p : List ℚ) :
    (pushParams ev p).validProducts = 0 := rfl

/-- The fields of an evaluator that the compute operations read but never
write: the two dimensions, the projection list and the sigma vector. -/
def EvStatic (a b : ModelEvaluator) : Prop :=
  a.nLinear = b.nLinear ∧ a.nNonlinear = b.nNonlinear ∧
  a.projectionList = b.projectionList ∧ a.sigma = b.sigma

lemma evStatic_refl (a : ModelEvaluator) : EvStatic a a := ⟨rfl, rfl, rfl, rfl⟩

lemma evStatic_symm {a b : ModelEvaluator} (h : EvStatic a b) : EvStatic b a :=
  ⟨h.1.symm, h.2.1.symm, h.2.2.1.symm, h.2.2.2.symm⟩

lemma evStatic_trans {a b c : ModelEvaluator} (h1 : EvStatic a b) (h2 : EvStatic b c) :
    EvStatic a c :=
  ⟨h1.1.trans h2.1, h1.2.1.trans h2.2.1, h1.2.2.1.trans h2.2.2.1, h1.2.2.2.trans h2.2.2.2⟩

lemma normModelImage_fields (a b : ModelEvaluator)
    (h1 : a.projectionList = b.projectionList) (h2 : a.linearParams = b.linearParams)
    (h3 : a.nonlinearParams = b.nonlinearParams) (h4 : a.sigma = b.sigma) :
    a.normModelImage = b.normModelImage := by
  unfold ModelEvaluator.normModelImage ModelEvaluator.rawModelImage
  rw [h1, h2, h3, h4]

lemma normLinearDeriv_fields (a b : ModelEvaluator)
    (h1 : a.projectionList = b.projectionList) (h2 : a.linearParams = b.linearParams)
    (h3 : a.nonlinearParams = b.nonlinearParams) (h4 : a.sigma = b.sigma)
    (h5 : a.nLinear = b.nLinear) :
    a.normLinearDeriv = b.normLinearDeriv := by
  unfold ModelEvaluator.normLinearDeriv ModelEvaluator.rawLinearDeriv
  rw [h1, h2, h3, h4, h5]

lemma normNonlinearDeriv_fields (a b : ModelEvaluator)
    (h1 : a.projectionList = b.projectionList) (h2 : a.linearParams = b.linearParams)
    (h3 : a.nonlinearParams = b.nonlinearParams) (h4 : a.sigma = b.sigma)
    (h5 : a.nLinear = b.nLinear) (h6 : a.nNonlinear = b.nNonlinear) :
    a.normNonlinearDeriv = b.normNonlinearDeriv := by
  unfold ModelEvaluator.normNonlinearDeriv ModelEvaluator.rawNonlinearDeriv
  rw [h1, h2, h3, h4, h5, h6]

lemma pushParams_normModelImage_congr (a b : ModelEvaluator) (p : List ℚ) (h : EvStatic a b) :
    (pushParams a p).normModelImage = (pushParams b p).normModelImage := by
  apply normModelImage_fields
  · exact h.2.2.1
  · show p.take a.nLinear = p.take b.nLinear
    rw [h.1]
  · show (p.drop a.nLinear).take a.nNonlinear = (p.drop b.nLinear).take b.nNonlinear
    rw [h.1, h.2.1]
  · exact h.2.2.2

lemma pushParams_normLinearDeriv_congr (a b : ModelEvaluator) (p : List ℚ) (h : EvStatic a b) :
    (pushParams a p).normLinearDeriv = (pushParams b p).normLinearDeriv := by
  apply normLinearDeriv_fields
  · exact h.2.2.1
  · show p.take a.nLinear = p.take b.nLinear
    rw [h.1]
  · show (p.drop a.nLinear).take a.nNonlinear = (p.drop b.nLinear).take b.nNonlinear
    rw [h.1, h.2.1]
  · exact h.2.2.2
  · exact h.1

lemma pushParams_normNonlinearDeriv_congr (a b : ModelEvaluator) (p : List ℚ)
    (h : EvStatic a b) :
    (pushParams a p).normNonlinearDeriv = (pushParams b p).normNonlinearDeriv := by
  apply normNonlinearDeriv_fields
  · exact h.2.2.1
  · show p.take a.nLinear = p.take b.nLinear
    rw [h.1]
  · show (p.drop a.nLinear).take a.nNonlinear = (p.drop b.nLinear).take b.nNonlinear
    rw [h.1, h.2.1]
  · exact h.2.2.2
  · exact h.1
  · exact h.2.1

/-- The objective value the adapter produces when its dirty flag forces the
parameter vector `p` into the evaluator before computing. -/
def valueAt (ev : ModelEvaluator) (measured p : List ℚ) : ℚ :=
  (1 / 2 : ℚ) * dotProd (subVec measured (pushParams ev p).normModelImage)
      (subVec measured (pushParams ev p).normModelImage)

/-- The gradient the adapter produces when its dirty flag forces the
parameter vector `p` into the evaluator before computing. -/
def gradAt (ev : ModelEvaluator) (measured p : List ℚ) : List ℚ :=
  ((pushParams ev p).normLinearDeriv.map fun c =>
      -(dotProd c (subVec measured (pushParams ev p).normModelImage)))
    ++ ((pushParams ev p).normNonlinearDeriv.map fun c =>
      -(dotProd c (subVec measured (pushParams ev p).normModelImage)))

lemma valueAt_congr (a b : ModelEvaluator) (m p : List ℚ) (h : EvStatic a b) :
    valueAt a m p = valueAt b m p := by
  unfold valueAt
  rw [pushParams_normModelImage_congr a b p h]

lemma gradAt_congr (a b : ModelEvaluator) (m p : List ℚ) (h : EvStatic a b) :
    gradAt a m p = gradAt b m p := by
  unfold gradAt
  rw [pushParams_normModelImage_congr a b p h, pushParams_normLinearDeriv_congr a b p h,
    pushParams_normNonlinearDeriv_congr a b p h]

lemma computeModelImage_clear_fst (ev : ModelEvaluator)
    (h : ev.validProducts &&& MODEL_IMAGE = 0) :
    (ev.computeModelImage).1 = ev.normModelImage := by
  rw [computeModelImage_clear ev h]

lemma computeModelImage_clear_snd (ev : ModelEvaluator)
    (h : ev.validProducts &&& MODEL_IMAGE = 0) :
    (ev.computeModelImage).2 = afterImage ev := by
  rw [computeModelImage_clear ev h]

lemma computeLinearDeriv_clear_fst (ev : ModelEvaluator)
    (h : ev.validProducts &&& LINEAR_PARAMETER_DERIVATIVE = 0) :
    (ev.computeLinearParameterDerivative).1 = ev.normLinearDeriv := by
  rw [computeLinearDeriv_clear ev h]

lemma computeLinearDeriv_clear_snd (ev : ModelEvaluator)
    (h : ev.validProducts &&& LINEAR_PARAMETER_DERIVATIVE = 0) :
    (ev.computeLinearParameterDerivative).2 = afterLinear ev := by
  rw [computeLinearDeriv_clear ev h]

lemma computeNonlinearDeriv_clear_fst (ev : ModelEvaluator)
    (h : ev.validProducts &&& NONLINEAR_PARAMETER_DERIVATIVE = 0) :
    (ev.computeNonlinearParameterDerivative).1 = ev.normNonlinearDeriv := by
  rw [computeNonlinearDeriv_clear ev h]

lemma computeNonlinearDeriv_clear_snd (ev : ModelEvaluator)
    (h : ev.validProducts &&& NONLINEAR_PARAMETER_DERIVATIVE = 0) :
    (ev.computeNonlinearParameterDerivative).2 = afterNonlinear ev := by
  rw [computeNonlinearDeriv_clear ev h]

lemma computeValue_dirty_eq (s : ChisqFunction) (p : List ℚ) (h : s.dirty = true) :
    s.computeValue p =
      (valueAt s.evaluator s.measured p,
       { s with evaluator := afterImage (pushParams s.evaluator p) }) := by
  have hv : (pushParams s.evaluator p).validProducts &&& MODEL_IMAGE = 0 := by
    rw [pushParams_validProducts]
    decide
  simp only [ChisqFunction.computeValue, valueAt, checkParams_of_dirty s p h, if_pos h,
    computeModelImage_clear_fst _ hv, computeModelImage_clear_snd _ hv]

lemma afterImage_normLinearDeriv (ev : ModelEvaluator) :
    (afterImage ev).normLinearDeriv = ev.normLinearDeriv := rfl

lemma afterLinear_afterImage_normNonlinearDeriv (ev : ModelEvaluator) :
    (afterLinear (afterImage ev)).normNonlinearDeriv = ev.normNonlinearDeriv := rfl

lemma computeGradient_dirty_eq (s : ChisqFunction) (p : List ℚ) (h : s.dirty = true) :
    s.computeGradient p =
      (gradAt s.evaluator s.measured p,
       { s with evaluator :=
          afterNonlinear (afterLinear (afterImage (pushParams s.evaluator p))) }) := by
  have hv1 : (pushParams s.evaluator p).validProducts &&& MODEL_IMAGE = 0 := by
    rw [pushParams_validProducts]
    decide
  have hv2 : (afterImage (pushParams s.evaluator p)).validProducts
      &&& LINEAR_PARAMETER_DERIVATIVE = 0 := by
    show ((pushParams s.evaluator p).validProducts ||| MODEL_IMAGE)
        &&& LINEAR_PARAMETER_DERIVATIVE = 0
    rw [pushParams_validProducts]
    decide
  have hv3 : (afterLinear (afterImage (pushParams s.evaluator p))).validProducts
      &&& NONLINEAR_PARAMETER_DERIVATIVE = 0 := by
    show (((pushParams s.evaluator p).validProducts ||| MODEL_IMAGE)
        ||| LINEAR_PARAMETER_DERIVATIVE) &&& NONLINEAR_PARAMETER_DERIVATIVE = 0
    rw [pushParams_validProducts]
    decide
  simp only [ChisqFunction.computeGradient, gradAt, checkParams_of_dirty s p h, if_pos h,
    computeModelImage_clear_fst _ hv1, computeModelImage_clear_snd _ hv1,
    computeLinearDeriv_clear_fst _ hv2, computeLinearDeriv_clear_snd _ hv2,
    computeNonlinearDeriv_clear_fst _ hv3, computeNonlinearDeriv_clear_snd _ hv3,
    afterImage_normLinearDeriv, afterLinear_afterImage_normNonlinearDeriv]

/-! ### State relation preserved by the adapter while dirty -/

/-- Two adapter states with the same captured data, the same static
evaluator core and the dirty flag set respond identically to every minimizer
query (everything else is recomputed after the parameter push). -/
def ChisqRel (s t : ChisqFunction) : Prop :=
  s.dirty = true ∧ t.dirty = true ∧ s.measured = t.measured ∧
    EvStatic s.evaluator t.evaluator

lemma chisqRel_refl (s : ChisqFunction) (h : s.dirty = true) : ChisqRel s s :=
  ⟨h, h, rfl, evStatic_refl _⟩

lemma chisqRel_symm {s t : ChisqFunction} (h : ChisqRel s t) : ChisqRel t s :=
  ⟨h.2.1, h.1, h.2.2.1.symm, evStatic_symm h.2.2.2⟩

lemma chisqRel_trans {s t u : ChisqFunction} (h1 : ChisqRel s t) (h2 : ChisqRel t u) :
    ChisqRel s u :=
  ⟨h1.1, h2.2.1, h1.2.2.1.trans h2.2.2.1, evStatic_trans h1.2.2.2 h2.2.2.2⟩

lemma computeValue_state_rel (s : ChisqFunction) (p : List ℚ) (h : s.dirty = true) :
    ChisqRel (s.computeValue p).2 s := by
  rw [computeValue_dirty_eq s p h]
  exact ⟨h, h, rfl, ⟨rfl, rfl, rfl, rfl⟩⟩

set_option maxHeartbeats 1000000 in
lemma computeGradient_state_rel (s : ChisqFunction) (p : List ℚ) (h : s.dirty = true) :
    ChisqRel (s.computeGradient p).2 s := by
  rw [computeGradient_dirty_eq s p h]
  exact ⟨h, h, rfl, ⟨rfl, rfl, rfl, rfl⟩⟩

lemma respond_rel (s t : ChisqFunction) (q : MinQuery) (h : ChisqRel s t) :
    (respond s q).1 = (respond t q).1 ∧ ChisqRel (respond s q).2 (respond t q).2 := by
  cases q with
  | val p =>
    constructor
    · show MinResponse.val (s.computeValue p).1 = MinResponse.val (t.computeValue p).1
      rw [computeValue_dirty_eq s p h.1, computeValue_dirty_eq t p h.2.1]
      show MinResponse.val (valueAt s.evaluator s.measured p)
          = MinResponse.val (valueAt t.evaluator t.measured p)
      rw [h.2.2.1, valueAt_congr s.evaluator t.evaluator t.measured p h.2.2.2]
    · show ChisqRel (s.computeValue p).2 (t.computeValue p).2
      exact chisqRel_trans (computeValue_state_rel s p h.1)
        (chisqRel_trans h (chisqRel_symm (computeValue_state_rel t p h.2.1)))
  | grad p =>
    constructor
    · show MinResponse.grad (s.computeGradient p).1 = MinResponse.grad (t.computeGradient p).1
      rw [computeGradient_dirty_eq s p h.1, computeGradient_dirty_eq t p h.2.1]
      show MinResponse.grad (gradAt s.evaluator s.measured p)
          = MinResponse.grad (gradAt t.evaluator t.measured p)
      rw [h.2.2.1, gradAt_congr s.evaluator t.evaluator t.measured p h.2.2.2]
    · show ChisqRel (s.computeGradient p).2 (t.computeGradient p).2
      exact chisqRel_trans (computeGradient_state_rel s p h.1)
        (chisqRel_trans h (chisqRel_symm (computeGradient_state_rel t p h.2.1)))

lemma runMigrad_rel (mig : MigradStrategy) (fuel : ℕ) :
    ∀ (hist : List MinResponse) (s t : ChisqFunction), ChisqRel s t →
      (runMigrad mig fuel s hist).1 = (runMigrad mig fuel t hist).1 := by
  induction fuel with
  | zero => intro hist s t _; rfl
  | succ n ih =>
    intro hist s t h
    unfold runMigrad
    cases hq : mig.step hist with
    | none => simp only [hq]
    | some q =>
      simp only [hq]
      have hr := respond_rel s t q h
      rw [hr.1]
      exact ih _ _ _ hr.2

lemma runValues_rel_self (qs : List (List ℚ)) :
    ∀ s : ChisqFunction, s.dirty = true → ChisqRel (runValues s qs) s := by
  induction qs with
  | nil => intro s h; exact chisqRel_refl s h
  | cons p rest ih =>
    intro s h
    unfold runValues
    have h1 := computeValue_state_rel s p h
    exact chisqRel_trans (ih _ h1.1) h1

/-! ### Claims about the fitters and the adapter -/

/-- Claim C8: the optimization result returned by the analytic fitter is the
same whether the checkGradient diagnostic option is enabled or disabled; the
diagnostic evaluations only touch state that every dirty-path evaluation
recomputes anyway, so the minimizer sees identical responses. -/
theorem claim8_checkGradient_no_effect (policy : FitterPolicy) (mig : MigradStrategy)
    (nq : List (List ℚ)) (ev : ModelEvaluator) (errs : List ℚ) :
    (MinuitAnalyticFitter.apply { policy with checkGradient := true } mig nq ev errs).1 =
    (MinuitAnalyticFitter.apply { policy with checkGradient := false } mig nq ev errs).1 := by
  unfold MinuitAnalyticFitter.apply
  by_cases h : errs.length ≠ ev.nLinear + ev.nNonlinear
  · rw [if_pos h, if_pos h]
  · rw [if_neg h, if_neg h]
    refine congrArg (fun x : MinuitFitterResult => (Except.ok x : Except String MinuitFitterResult)) ?_
    apply runMigrad_rel mig policy.iterationMax []
    show ChisqRel
      ((runValues ((ChisqFunction.construct ev).computeValue
          (ev.linearParams ++ ev.nonlinearParams)).2 nq).computeGradient
          (ev.linearParams ++ ev.nonlinearParams)).2
      (ChisqFunction.construct ev)
    have hd0 : (ChisqFunction.construct ev).dirty = true := rfl
    have h1 := computeValue_state_rel (ChisqFunction.construct ev)
      (ev.linearParams ++ ev.nonlinearParams) hd0
    have h2 := runValues_rel_self nq
      ((ChisqFunction.construct ev).computeValue (ev.linearParams ++ ev.nonlinearParams)).2 h1.1
    have h3 := computeGradient_state_rel
      (runValues ((ChisqFunction.construct ev).computeValue
        (ev.linearParams ++ ev.nonlinearParams)).2 nq)
      (ev.linearParams ++ ev.nonlinearParams) h2.1
    exact chisqRel_trans h3 (chisqRel_trans h2 h1)

/-- Claim C3: after `value(p1)`, a call `gradient(p2)` pushes `p2` into the
evaluator (the stored parameter segments become the segments of `p2`) and the
returned gradient equals the gradient a fresh adapter would compute at `p2`:
nothing cached under `p1` leaks into the result. -/
theorem claim3_gradient_reflects_new_params (ev : ModelEvaluator) (p1 p2 : List ℚ)
    (hne : p1 ≠ p2) :
    ((((ChisqFunction.construct ev).computeValue p1).2.computeGradient p2).2.evaluator.linearParams
        = p2.take ev.nLinear) ∧
    ((((ChisqFunction.construct ev).computeValue p1).2.computeGradient p2).2.evaluator.nonlinearParams
        = (p2.drop ev.nLinear).take ev.nNonlinear) ∧
    ((((ChisqFunction.construct ev).computeValue p1).2.computeGradient p2).1
        = ((ChisqFunction.construct ev).computeGradient p2).1) := by
  have hd0 : (ChisqFunction.construct ev).dirty = true := rfl
  have hs1 := computeValue_dirty_eq (ChisqFunction.construct ev) p1 hd0
  refine ⟨?_, ?_, ?_⟩
  · rw [hs1, computeGradient_dirty_eq _ p2 rfl]
    rfl
  · rw [hs1, computeGradient_dirty_eq _ p2 rfl]
    rfl
  · rw [hs1, computeGradient_dirty_eq _ p2 rfl,
      computeGradient_dirty_eq (ChisqFunction.construct ev) p2 hd0]
    show gradAt (afterImage (pushParams ev p1)) (ChisqFunction.construct ev).measured p2
        = gradAt ev (ChisqFunction.construct ev).measured p2
    exact gradAt_congr _ _ _ p2 ⟨rfl, rfl, rfl, rfl⟩

/-- Claim C3 witness at a concrete evaluator and two concrete parameter
vectors differing in one component. -/
theorem claim3_witness :
    (([2, 5, 5] : List ℚ) ≠ [2, 5, 7]) ∧
    (((((ChisqFunction.construct evC1).computeValue [2, 5, 5]).2.computeGradient
          [2, 5, 7]).2.evaluator.linearParams = ([2, 5, 7] : List ℚ).take evC1.nLinear) ∧
     ((((ChisqFunction.construct evC1).computeValue [2, 5, 5]).2.computeGradient
          [2, 5, 7]).2.evaluator.nonlinearParams
        = (([2, 5, 7] : List ℚ).drop evC1.nLinear).take evC1.nNonlinear) ∧
     ((((ChisqFunction.construct evC1).computeValue [2, 5, 5]).2.computeGradient [2, 5, 7]).1
        = ((ChisqFunction.construct evC1).computeGradient [2, 5, 7]).1)) :=
  ⟨by norm_num, claim3_gradient_reflects_new_params evC1 [2, 5, 5] [2, 5, 7] (by norm_num)⟩

/-- Claim C7: when the initial-error vector length differs from
`nLinear + nNonlinear`, both fitters raise the invalid-parameter error before
any minimizer interaction: the outcome does not depend on the minimizer at
all and the evaluator comes back unchanged. -/
theorem claim7_length_mismatch_aborts (policy : FitterPolicy) (mig : MigradStrategy)
    (nq : List (List ℚ)) (ev : ModelEvaluator) (errs : List ℚ)
    (h : errs.length ≠ ev.nLinear + ev.nNonlinear) :
    MinuitAnalyticFitter.apply policy mig nq ev errs = (Except.error lengthErrMsg, ev) ∧
    MinuitNumericFitter.apply policy mig ev errs = (Except.error lengthErrMsg, ev) := by
  constructor
  · unfold MinuitAnalyticFitter.apply
    rw [if_pos h]
  · unfold MinuitNumericFitter.apply
    rw [if_pos h]

/-- A trivial concrete minimizer strategy for witnesses. -/
def migW : MigradStrategy :=
  { step := fun _ => none
    finish := fun _ => { parameters := [], value := 0, converged := false } }

/-- A concrete fitter configuration for witnesses. -/
def polW : FitterPolicy :=
  { checkGradient := false, strategy := 1, iterationMax := 5, tolerance := 1 }

/-- Claim C7 witness: `evC2` exposes two model parameters, and a one-element
error vector aborts both fitters with the configuration error. -/
theorem claim7_witness :
    ([1] : List ℚ).length ≠ evC2.nLinear + evC2.nNonlinear ∧
    (MinuitAnalyticFitter.apply polW migW [] evC2 [1] = (Except.error lengthErrMsg, evC2) ∧
     MinuitNumericFitter.apply polW migW evC2 [1] = (Except.error lengthErrMsg, evC2)) :=
  ⟨by decide, claim7_length_mismatch_aborts polW migW [] evC2 [1] (by decide)⟩

/-! ### checkParams branch lemmas and field-insensitivity of the adapter -/

lemma chisq_eta_dirty_false (s : ChisqFunction) (h : s.dirty = false) :
    ({ s with dirty := false } : ChisqFunction) = s := by
  cases s with
  | mk d e m =>
    simp only at h
    subst h
    rfl

lemma checkParams_clean_lin_diff (s : ChisqFunction) (p : List ℚ) (hd : s.dirty = false)
    (hL : 0 < s.evaluator.nLinear)
    (hne : p.getD 0 0 ≠ s.evaluator.linearParams.getD 0 0) :
    s.checkParams p = { s with dirty := true } := by
  unfold ChisqFunction.checkParams
  rw [if_neg (by simp [hd]), if_pos hL, if_pos hne]

lemma checkParams_clean_lin_eq (s : ChisqFunction) (p : List ℚ) (hd : s.dirty = false)
    (hL : 0 < s.evaluator.nLinear)
    (hne : ¬ p.getD 0 0 ≠ s.evaluator.linearParams.getD 0 0) :
    s.checkParams p = s := by
  unfold ChisqFunction.checkParams
  rw [if_neg (by simp [hd]), if_pos hL, if_neg hne]

lemma checkParams_clean_nonlin_diff (s : ChisqFunction) (p : List ℚ) (hd : s.dirty = false)
    (hL : ¬ 0 < s.evaluator.nLinear) (hNL : 0 < s.evaluator.nNonlinear)
    (hne : p.getD 0 0 ≠ s.evaluator.nonlinearParams.getD 0 0) :
    s.checkParams p = { s with dirty := true } := by
  unfold ChisqFunction.checkParams
  rw [if_neg (by simp [hd]), if_neg hL, if_pos hNL, if_pos hne]

lemma checkParams_clean_nonlin_eq (s : ChisqFunction) (p : List ℚ) (hd : s.dirty = false)
    (hL : ¬ 0 < s.evaluator.nLinear) (hNL : 0 < s.evaluator.nNonlinear)
    (hne : ¬ p.getD 0 0 ≠ s.evaluator.nonlinearParams.getD 0 0) :
    s.checkParams p = s := by
  unfold ChisqFunction.checkParams
  rw [if_neg (by simp [hd]), if_neg hL, if_pos hNL, if_neg hne]

lemma checkParams_clean_zero (s : ChisqFunction) (p : List ℚ) (hd : s.dirty = false)
    (hL : ¬ 0 < s.evaluator.nLinear) (hNL : ¬ 0 < s.evaluator.nNonlinear) :
    s.checkParams p = s := by
  unfold ChisqFunction.checkParams
  rw [if_neg (by simp [hd]), if_neg hL, if_neg hNL]
  exact chisq_eta_dirty_false s hd

lemma computeValue_of_checkParams_dirty (s : ChisqFunction) (p : List ℚ) (c : ChisqFunction)
    (hcp : s.checkParams p = c) (hcd : c.dirty = true) :
    s.computeValue p = c.computeValue p := by
  unfold ChisqFunction.computeValue
  rw [hcp, checkParams_of_dirty c p hcd]

lemma computeGradient_of_checkParams_dirty (s : ChisqFunction) (p : List ℚ) (c : ChisqFunction)
    (hcp : s.checkParams p = c) (hcd : c.dirty = true) :
    s.computeGradient p = c.computeGradient p := by
  unfold ChisqFunction.computeGradient
  rw [hcp, checkParams_of_dirty c p hcd]

lemma computeValue_clean_eq (s : ChisqFunction) (p : List ℚ)
    (hcp : s.checkParams p = s) (hcd : s.dirty = false) :
    s.computeValue p =
      ((1 / 2 : ℚ) * dotProd (subVec s.measured (s.evaluator.computeModelImage).1)
          (subVec s.measured (s.evaluator.computeModelImage).1),
       { s with evaluator := (s.evaluator.computeModelImage).2 }) := by
  unfold ChisqFunction.computeValue
  simp only [hcp, hcd, Bool.false_eq_true, if_false]

lemma computeGradient_clean_eq (s : ChisqFunction) (p : List ℚ)
    (hcp : s.checkParams p = s) (hcd : s.dirty = false) :
    s.computeGradient p =
      ((((s.evaluator.computeModelImage).2.computeLinearParameterDerivative).1.map
          fun col => -(dotProd col (subVec s.measured (s.evaluator.computeModelImage).1)))
        ++ ((((s.evaluator.computeModelImage).2.computeLinearParameterDerivative).2.computeNonlinearParameterDerivative).1.map
          fun col => -(dotProd col (subVec s.measured (s.evaluator.computeModelImage).1))),
       { s with evaluator :=
          (((s.evaluator.computeModelImage).2.computeLinearParameterDerivative).2.computeNonlinearParameterDerivative).2 }) := by
  unfold ChisqFunction.computeGradient
  simp only [hcp, hcd, Bool.false_eq_true, if_false]

/-- Equality of every evaluator field that the three compute operations and
`checkParams` read or write: everything except the data and variance buffers
and the frame bookkeeping. -/
def EvNoData (a b : ModelEvaluator) : Prop :=
  a.nLinear = b.nLinear ∧ a.nNonlinear = b.nNonlinear ∧
  a.projectionList = b.projectionList ∧ a.sigma = b.sigma ∧
  a.linearParams = b.linearParams ∧ a.nonlinearParams = b.nonlinearParams ∧
  a.validProducts = b.validProducts ∧ a.modelImage = b.modelImage ∧
  a.linearDerivative = b.linearDerivative ∧ a.nonlinearDerivative = b.nonlinearDerivative

lemma computeModelImage_nodata (a b : ModelEvaluator) (h : EvNoData a b) :
    (a.computeModelImage).1 = (b.computeModelImage).1 ∧
    EvNoData (a.computeModelImage).2 (b.computeModelImage).2 := by
  obtain ⟨e1, e2, e3, e4, e5, e6, e7, e8, e9, e10⟩ := h
  have hni : a.normModelImage = b.normModelImage := normModelImage_fields a b e3 e5 e6 e4
  by_cases hf : a.validProducts &&& MODEL_IMAGE = 0
  · have hfb : b.validProducts &&& MODEL_IMAGE = 0 := by rw [← e7]; exact hf
    rw [computeModelImage_clear a hf, computeModelImage_clear b hfb]
    exact ⟨hni, e1, e2, e3, e4, e5, e6, by show a.validProducts ||| MODEL_IMAGE = b.validProducts ||| MODEL_IMAGE; rw [e7],
      hni, e9, e10⟩
  · have hfb : ¬ b.validProducts &&& MODEL_IMAGE = 0 := by rw [← e7]; exact hf
    rw [computeModelImage_cached a hf, computeModelImage_cached b hfb]
    exact ⟨e8, e1, e2, e3, e4, e5, e6, e7, e8, e9, e10⟩

lemma computeLinearDeriv_nodata (a b : ModelEvaluator) (h : EvNoData a b) :
    (a.computeLinearParameterDerivative).1 = (b.computeLinearParameterDerivative).1 ∧
    EvNoData (a.computeLinearParameterDerivative).2 (b.computeLinearParameterDerivative).2 := by
  obtain ⟨e1, e2, e3, e4, e5, e6, e7, e8, e9, e10⟩ := h
  have hnd : a.normLinearDeriv = b.normLinearDeriv := normLinearDeriv_fields a b e3 e5 e6 e4 e1
  by_cases hf : a.validProducts &&& LINEAR_PARAMETER_DERIVATIVE = 0
  · have hfb : b.validProducts &&& LINEAR_PARAMETER_DERIVATIVE = 0 := by rw [← e7]; exact hf
    rw [computeLinearDeriv_clear a hf, computeLinearDeriv_clear b hfb]
    exact ⟨hnd, e1, e2, e3, e4, e5, e6,
      by show a.validProducts ||| LINEAR_PARAMETER_DERIVATIVE = b.validProducts ||| LINEAR_PARAMETER_DERIVATIVE; rw [e7], e8, hnd, e10⟩
  · have hfb : ¬ b.validProducts &&& LINEAR_PARAMETER_DERIVATIVE = 0 := by rw [← e7]; exact hf
    rw [computeLinearDeriv_cached a hf, computeLinearDeriv_cached b hfb]
    exact ⟨e9, e1, e2, e3, e4, e5, e6, e7, e8, e9, e10⟩

lemma computeNonlinearDeriv_nodata (a b : ModelEvaluator) (h : EvNoData a b) :
    (a.computeNonlinearParameterDerivative).1 = (b.computeNonlinearParameterDerivative).1 ∧
    EvNoData (a.computeNonlinearParameterDerivative).2 (b.computeNonlinearParameterDerivative).2 := by
  obtain ⟨e1, e2, e3, e4, e5, e6, e7, e8, e9, e10⟩ := h
  have hnd : a.normNonlinearDeriv = b.normNonlinearDeriv :=
    normNonlinearDeriv_fields a b e3 e5 e6 e4 e1 e2
  by_cases hf : a.validProducts &&& NONLINEAR_PARAMETER_DERIVATIVE = 0
  · have hfb : b.validProducts &&& NONLINEAR_PARAMETER_DERIVATIVE = 0 := by rw [← e7]; exact hf
    rw [computeNonlinearDeriv_clear a hf, computeNonlinearDeriv_clear b hfb]
    exact ⟨hnd, e1, e2, e3, e4, e5, e6,
      by show a.validProducts ||| NONLINEAR_PARAMETER_DERIVATIVE = b.validProducts ||| NONLINEAR_PARAMETER_DERIVATIVE; rw [e7], e8, e9, hnd⟩
  · have hfb : ¬ b.validProducts &&& NONLINEAR_PARAMETER_DERIVATIVE = 0 := by rw [← e7]; exact hf
    rw [computeNonlinearDeriv_cached a hf, computeNonlinearDeriv_cached b hfb]
    exact ⟨e10, e1, e2, e3, e4, e5, e6, e7, e8, e9, e10⟩

lemma bool_not_true_eq_false {b : Bool} (h : ¬ b = true) : b = false := by
  cases b
  · rfl
  · exact absurd rfl h

lemma computeValue_nodata (s t : ChisqFunction) (p : List ℚ)
    (hd : s.dirty = t.dirty) (hm : s.measured = t.measured)
    (h : EvNoData s.evaluator t.evaluator) :
    (s.computeValue p).1 = (t.computeValue p).1 := by
  obtain ⟨e1, e2, e3, e4, e5, e6, e7, e8, e9, e10⟩ := h
  by_cases hsd : s.dirty = true
  · have htd : t.dirty = true := by rw [← hd]; exact hsd
    rw [computeValue_dirty_eq s p hsd, computeValue_dirty_eq t p htd]
    show valueAt s.evaluator s.measured p = valueAt t.evaluator t.measured p
    rw [hm]
    exact valueAt_congr _ _ _ _ ⟨e1, e2, e3, e4⟩
  · have hsd' : s.dirty = false := bool_not_true_eq_false hsd
    have htd' : t.dirty = false := by rw [← hd]; exact hsd'
    have hclean : ∀ (u v : ChisqFunction), u.checkParams p = u → v.checkParams p = v →
        u.dirty = false → v.dirty = false → u.measured = v.measured →
        EvNoData u.evaluator v.evaluator →
        (u.computeValue p).1 = (v.computeValue p).1 := by
      intro u v hcu hcv hud hvd hum hno
      rw [computeValue_clean_eq u p hcu hud, computeValue_clean_eq v p hcv hvd]
      show (1 / 2 : ℚ) * dotProd (subVec u.measured (u.evaluator.computeModelImage).1)
            (subVec u.measured (u.evaluator.computeModelImage).1)
          = (1 / 2 : ℚ) * dotProd (subVec v.measured (v.evaluator.computeModelImage).1)
            (subVec v.measured (v.evaluator.computeModelImage).1)
      rw [hum, (computeModelImage_nodata u.evaluator v.evaluator hno).1]
    have hdirtyPath : ∀ (u v : ChisqFunction),
        u.checkParams p = { u with dirty := true } →
        v.checkParams p = { v with dirty := true } →
        u.measured = v.measured → EvNoData u.evaluator v.evaluator →
        (u.computeValue p).1 = (v.computeValue p).1 := by
      intro u v hcu hcv hum hno
      rw [computeValue_of_checkParams_dirty u p _ hcu rfl,
        computeValue_of_checkParams_dirty v p _ hcv rfl]
      rw [computeValue_dirty_eq _ p rfl, computeValue_dirty_eq _ p rfl]
      show valueAt u.evaluator u.measured p = valueAt v.evaluator v.measured p
      rw [hum]
      exact valueAt_congr _ _ _ _ ⟨hno.1, hno.2.1, hno.2.2.1, hno.2.2.2.1⟩
    by_cases hL : 0 < s.evaluator.nLinear
    · have hLt : 0 < t.evaluator.nLinear := by rw [← e1]; exact hL
      by_cases hne : p.getD 0 0 ≠ s.evaluator.linearParams.getD 0 0
      · have hnet : p.getD 0 0 ≠ t.evaluator.linearParams.getD 0 0 := by
          rw [← e5]; exact hne
        exact hdirtyPath s t (checkParams_clean_lin_diff s p hsd' hL hne)
          (checkParams_clean_lin_diff t p htd' hLt hnet) hm
          ⟨e1, e2, e3, e4, e5, e6, e7, e8, e9, e10⟩
      · have hnet : ¬ p.getD 0 0 ≠ t.evaluator.linearParams.getD 0 0 := by
          rw [← e5]; exact hne
        exact hclean s t (checkParams_clean_lin_eq s p hsd' hL hne)
          (checkParams_clean_lin_eq t p htd' hLt hnet) hsd' htd' hm
          ⟨e1, e2, e3, e4, e5, e6, e7, e8, e9, e10⟩
    · have hLt : ¬ 0 < t.evaluator.nLinear := by rw [← e1]; exact hL
      by_cases hNL : 0 < s.evaluator.nNonlinear
      · have hNLt : 0 < t.evaluator.nNonlinear := by rw [← e2]; exact hNL
        by_cases hne : p.getD 0 0 ≠ s.evaluator.nonlinearParams.getD 0 0
        · have hnet : p.getD 0 0 ≠ t.evaluator.nonlinearParams.getD 0 0 := by
            rw [← e6]; exact hne
          exact hdirtyPath s t (checkParams_clean_nonlin_diff s p hsd' hL hNL hne)
            (checkParams_clean_nonlin_diff t p htd' hLt hNLt hnet) hm
            ⟨e1, e2, e3, e4, e5, e6, e7, e8, e9, e10⟩
        · have hnet : ¬ p.getD 0 0 ≠ t.evaluator.nonlinearParams.getD 0 0 := by
            rw [← e6]; exact hne
          exact hclean s t (checkParams_clean_nonlin_eq s p hsd' hL hNL hne)
            (checkParams_clean_nonlin_eq t p htd' hLt hNLt hnet) hsd' htd' hm
            ⟨e1, e2, e3, e4, e5, e6, e7, e8, e9, e10⟩
      · have hNLt : ¬ 0 < t.evaluator.nNonlinear := by rw [← e2]; exact hNL
        exact hclean s t (checkParams_clean_zero s p hsd' hL hNL)
          (checkParams_clean_zero t p htd' hLt hNLt) hsd' htd' hm
          ⟨e1, e2, e3, e4, e5, e6, e7, e8, e9, e10⟩

lemma computeGradient_nodata (s t : ChisqFunction) (p : List ℚ)
    (hd : s.dirty = t.dirty) (hm : s.measured = t.measured)
    (h : EvNoData s.evaluator t.evaluator) :
    (s.computeGradient p).1 = (t.computeGradient p).1 := by
  obtain ⟨e1, e2, e3, e4, e5, e6, e7, e8, e9, e10⟩ := h
  by_cases hsd : s.dirty = true
  · have htd : t.dirty = true := by rw [← hd]; exact hsd
    rw [computeGradient_dirty_eq s p hsd, computeGradient_dirty_eq t p htd]
    show gradAt s.evaluator s.measured p = gradAt t.evaluator t.measured p
    rw [hm]
    exact gradAt_congr _ _ _ _ ⟨e1, e2, e3, e4⟩
  · have hsd' : s.dirty = false := bool_not_true_eq_false hsd
    have htd' : t.dirty = false := by rw [← hd]; exact hsd'
    have hclean : ∀ (u v : ChisqFunction), u.checkParams p = u → v.checkParams p = v →
        u.dirty = false → v.dirty = false → u.measured = v.measured →
        EvNoData u.evaluator v.evaluator →
        (u.computeGradient p).1 = (v.computeGradient p).1 := by
      intro u v hcu hcv hud hvd hum hno
      rw [computeGradient_clean_eq u p hcu hud, computeGradient_clean_eq v p hcv hvd]
      have hI := computeModelImage_nodata u.evaluator v.evaluator hno
      have hL2 := computeLinearDeriv_nodata _ _ hI.2
      have hN2 := computeNonlinearDeriv_nodata _ _ hL2.2
      show ((u.evaluator.computeModelImage).2.computeLinearParameterDerivative).1.map
            (fun col => -(dotProd col (subVec u.measured (u.evaluator.computeModelImage).1)))
          ++ ((((u.evaluator.computeModelImage).2.computeLinearParameterDerivative).2.computeNonlinearParameterDerivative).1.map
            fun col => -(dotProd col (subVec u.measured (u.evaluator.computeModelImage).1)))
          = ((v.evaluator.computeModelImage).2.computeLinearParameterDerivative).1.map
            (fun col => -(dotProd col (subVec v.measured (v.evaluator.computeModelImage).1)))
          ++ ((((v.evaluator.computeModelImage).2.computeLinearParameterDerivative).2.computeNonlinearParameterDerivative).1.map
            fun col => -(dotProd col (subVec v.measured (v.evaluator.computeModelImage).1)))
      rw [hum, hI.1, hL2.1, hN2.1]
    have hdirtyPath : ∀ (u v : ChisqFunction),
        u.checkParams p = { u with dirty := true } →
        v.checkParams p = { v with dirty := true } →
        u.measured = v.measured → EvNoData u.evaluator v.evaluator →
        (u.computeGradient p).1 = (v.computeGradient p).1 := by
      intro u v hcu hcv hum hno
      rw [computeGradient_of_checkParams_dirty u p _ hcu rfl,
        computeGradient_of_checkParams_dirty v p _ hcv rfl]
      rw [computeGradient_dirty_eq _ p rfl, computeGradient_dirty_eq _ p rfl]
      show gradAt u.evaluator u.measured p = gradAt v.evaluator v.measured p
      rw [hum]
      exact gradAt_congr _ _ _ _ ⟨hno.1, hno.2.1, hno.2.2.1, hno.2.2.2.1⟩
    by_cases hL : 0 < s.evaluator.nLinear
    · have hLt : 0 < t.evaluator.nLinear := by rw [← e1]; exact hL
      by_cases hne : p.getD 0 0 ≠ s.evaluator.linearParams.getD 0 0
      · have hnet : p.getD 0 0 ≠ t.evaluator.linearParams.getD 0 0 := by
          rw [← e5]; exact hne
        exact hdirtyPath s t (checkParams_clean_lin_diff s p hsd' hL hne)
          (checkParams_clean_lin_diff t p htd' hLt hnet) hm
          ⟨e1, e2, e3, e4, e5, e6, e7, e8, e9, e10⟩
      · have hnet : ¬ p.getD 0 0 ≠ t.evaluator.linearParams.getD 0 0 := by
          rw [← e5]; exact hne
        exact hclean s t (checkParams_clean_lin_eq s p hsd' hL hne)
          (checkParams_clean_lin_eq t p htd' hLt hnet) hsd' htd' hm
          ⟨e1, e2, e3, e4, e5, e6, e7, e8, e9, e10⟩
    · have hLt : ¬ 0 < t.evaluator.nLinear := by rw [← e1]; exact hL
      by_cases hNL : 0 < s.evaluator.nNonlinear
      · have hNLt : 0 < t.evaluator.nNonlinear := by rw [← e2]; exact hNL
        by_cases hne : p.getD 0 0 ≠ s.evaluator.nonlinearParams.getD 0 0
        · have hnet : p.getD 0 0 ≠ t.evaluator.nonlinearParams.getD 0 0 := by
            rw [← e6]; exact hne
          exact hdirtyPath s t (checkParams_clean_nonlin_diff s p hsd' hL hNL hne)
            (checkParams_clean_nonlin_diff t p htd' hLt hNLt hnet) hm
            ⟨e1, e2, e3, e4, e5, e6, e7, e8, e9, e10⟩
        · have hnet : ¬ p.getD 0 0 ≠ t.evaluator.nonlinearParams.getD 0 0 := by
            rw [← e6]; exact hne
          exact hclean s t (checkParams_clean_nonlin_eq s p hsd' hL hNL hne)
            (checkParams_clean_nonlin_eq t p htd' hLt hNLt hnet) hsd' htd' hm
            ⟨e1, e2, e3, e4, e5, e6, e7, e8, e9, e10⟩
      · have hNLt : ¬ 0 < t.evaluator.nNonlinear := by rw [← e2]; exact hNL
        exact hclean s t (checkParams_clean_zero s p hsd' hL hNL)
          (checkParams_clean_zero t p htd' hLt hNLt) hsd' htd' hm
          ⟨e1, e2, e3, e4, e5, e6, e7, e8, e9, e10⟩

/-- Claim C10: the weighted data vector is captured once at adapter
construction; neither `value` nor `gradient` ever refreshes it, and replacing
the data buffer inside the wrapped evaluator (as a frame-set reassignment
changing the observed pixel values would) leaves the value and the gradient
returned by the adapter unchanged: the residual data term always comes from
the snapshot. -/
theorem claim10_measured_snapshot (s : ChisqFunction) (d p : List ℚ) :
    (∀ ev : ModelEvaluator, (ChisqFunction.construct ev).measured = ev.getWeightedData) ∧
    (s.computeValue p).2.measured = s.measured ∧
    (s.computeGradient p).2.measured = s.measured ∧
    (ChisqFunction.computeValue
        { s with evaluator := { s.evaluator with dataVector := d } } p).1
      = (s.computeValue p).1 ∧
    (ChisqFunction.computeGradient
        { s with evaluator := { s.evaluator with dataVector := d } } p).1
      = (s.computeGradient p).1 := by
  refine ⟨fun ev => rfl, ?_, ?_, ?_, ?_⟩
  · exact checkParams_measured s p
  · exact checkParams_measured s p
  · exact computeValue_nodata _ s p rfl rfl ⟨rfl, rfl, rfl, rfl, rfl, rfl, rfl, rfl, rfl, rfl⟩
  · exact computeGradient_nodata _ s p rfl rfl ⟨rfl, rfl, rfl, rfl, rfl, rfl, rfl, rfl, rfl, rfl⟩

/-- Claim C9: calling `value(p)` twice in a row with no intervening parameter
change returns identical results, and once the MODEL_IMAGE flag is set,
`computeModelImage` returns the cached normalized vector with the evaluator
untouched (so no frame projection is invoked again). -/
theorem claim9_value_cache_idempotent :
    (∀ (s : ChisqFunction) (p : List ℚ),
        (s.computeValue p).1 = ((s.computeValue p).2.computeValue p).1) ∧
    (∀ ev : ModelEvaluator, ev.validProducts &&& MODEL_IMAGE ≠ 0 →
        ev.computeModelImage = (ev.modelImage, ev)) := by
  constructor
  · intro s p
    have hdirty : ∀ u : ChisqFunction, u.dirty = true →
        (u.computeValue p).1 = ((u.computeValue p).2.computeValue p).1 := by
      intro u hud
      have hd2 : (u.computeValue p).2.dirty = true := by
        rw [computeValue_dirty_eq u p hud]
        exact hud
      rw [computeValue_dirty_eq _ p hd2, computeValue_dirty_eq u p hud]
      show valueAt u.evaluator u.measured p
          = valueAt (afterImage (pushParams u.evaluator p)) u.measured p
      exact valueAt_congr _ _ _ _ ⟨rfl, rfl, rfl, rfl⟩
    by_cases hsd : s.dirty = true
    · exact hdirty s hsd
    · have hsd' : s.dirty = false := bool_not_true_eq_false hsd
      have hclean2 : s.checkParams p = s →
          (ChisqFunction.checkParams { s with evaluator := afterImage s.evaluator } p
            = { s with evaluator := afterImage s.evaluator }) →
          (s.computeValue p).1 = ((s.computeValue p).2.computeValue p).1 := by
        intro hcp hcpt
        by_cases hf : s.evaluator.validProducts &&& MODEL_IMAGE = 0
        · have hflag : ¬ (afterImage s.evaluator).validProducts &&& MODEL_IMAGE = 0 := by
            show ¬ (s.evaluator.validProducts ||| MODEL_IMAGE) &&& MODEL_IMAGE = 0
            unfold MODEL_IMAGE
            rw [nat_or_one_and_one]
            exact one_ne_zero
          rw [computeValue_clean_eq s p hcp hsd', computeModelImage_clear s.evaluator hf]
          show (1 / 2 : ℚ) * dotProd (subVec s.measured s.evaluator.normModelImage)
              (subVec s.measured s.evaluator.normModelImage)
            = (ChisqFunction.computeValue { s with evaluator := afterImage s.evaluator } p).1
          rw [computeValue_clean_eq _ p hcpt hsd']
          show (1 / 2 : ℚ) * dotProd (subVec s.measured s.evaluator.normModelImage)
              (subVec s.measured s.evaluator.normModelImage)
            = (1 / 2 : ℚ) * dotProd
              (subVec s.measured ((afterImage s.evaluator).computeModelImage).1)
              (subVec s.measured ((afterImage s.evaluator).computeModelImage).1)
          rw [computeModelImage_cached (afterImage s.evaluator) hflag]
          rfl
        · rw [computeValue_clean_eq s p hcp hsd', computeModelImage_cached s.evaluator hf]
          show (1 / 2 : ℚ) * dotProd (subVec s.measured s.evaluator.modelImage)
              (subVec s.measured s.evaluator.modelImage)
            = (s.computeValue p).1
          rw [computeValue_clean_eq s p hcp hsd', computeModelImage_cached s.evaluator hf]
      by_cases hL : 0 < s.evaluator.nLinear
      · by_cases hne : p.getD 0 0 ≠ s.evaluator.linearParams.getD 0 0
        · rw [computeValue_of_checkParams_dirty s p _
            (checkParams_clean_lin_diff s p hsd' hL hne) rfl]
          exact hdirty _ rfl
        · exact hclean2 (checkParams_clean_lin_eq s p hsd' hL hne)
            (checkParams_clean_lin_eq _ p hsd' hL hne)
      · by_cases hNL : 0 < s.evaluator.nNonlinear
        · by_cases hne : p.getD 0 0 ≠ s.evaluator.nonlinearParams.getD 0 0
          · rw [computeValue_of_checkParams_dirty s p _
              (checkParams_clean_nonlin_diff s p hsd' hL hNL hne) rfl]
            exact hdirty _ rfl
          · exact hclean2 (checkParams_clean_nonlin_eq s p hsd' hL hNL hne)
              (checkParams_clean_nonlin_eq _ p hsd' hL hNL hne)
        · exact hclean2 (checkParams_clean_zero s p hsd' hL hNL)
            (checkParams_clean_zero _ p hsd' hL hNL)
  · intro ev h
    exact computeModelImage_cached ev h

/-- Evaluator with the MODEL_IMAGE flag already set, for the C9 witness. -/
def evC9 : ModelEvaluator :=
  { nLinear := 1
    nNonlinear := 1
    nMinPix := 0
    projectionList := [projC1]
    dataVector := [6]
    varianceVector := [4]
    sigma := [2]
    slices := [(0, 1)]
    linearParams := [1]
    nonlinearParams := [1]
    validProducts := 1
    modelImage := [3]
    linearDerivative := []
    nonlinearDerivative := []
    projInvocations := 1 }

/-- Claim C9 witness: on `evC9`, whose MODEL_IMAGE flag is set,
`computeModelImage` returns the cached vector and the untouched evaluator. -/
theorem claim9_witness :
    evC9.validProducts &&& MODEL_IMAGE ≠ 0 ∧ evC9.computeModelImage = (evC9.modelImage, evC9) :=
  ⟨by decide, claim9_value_cache_idempotent.2 evC9 (by decide)⟩

/-- Exposure whose footprint pixel count equals the witness threshold 2. -/
def expPix2 : Exposure :=
  { npix := 2
    data := [1, 1]
    variance := [1, 1]
    image := fun _ _ => [0, 0]
    dLinear := fun _ _ => [[0, 0]]
    dNonlinear := fun _ _ => [[0, 0]] }

/-- Exposure one pixel above the witness threshold 2. -/
def expPix3 : Exposure :=
  { npix := 3
    data := [1, 1, 1]
    variance := [1, 1, 1]
    image := fun _ _ => [0, 0, 0]
    dLinear := fun _ _ => [[0, 0, 0]]
    dNonlinear := fun _ _ => [[0, 0, 0]] }

/-- Exposure with five contributing pixels. -/
def expPix5 : Exposure :=
  { npix := 5
    data := [1, 1, 1, 1, 1]
    variance := [1, 1, 1, 1, 1]
    image := fun _ _ => [0, 0, 0, 0, 0]
    dLinear := fun _ _ => [[0, 0, 0, 0, 0]]
    dNonlinear := fun _ _ => [[0, 0, 0, 0, 0]] }

/-- Evaluator with pixel threshold 2 used by the frame-set witnesses. -/
def evB5 : ModelEvaluator :=
  { nLinear := 1
    nNonlinear := 1
    nMinPix := 2
    projectionList := []
    dataVector := []
    varianceVector := []
    sigma := []
    slices := []
    linearParams := [1]
    nonlinearParams := [1]
    validProducts := 0
    modelImage := []
    linearDerivative := []
    nonlinearDerivative := []
    projInvocations := 0 }

/-- Claim C4 witness: with threshold 2, an exposure with 2 pixels is
rejected and one with 3 pixels is accepted. -/
theorem claim4_witness :
    ((evB5.setExposureList id [expPix2, expPix3]).projectionList
      = ([expPix2, expPix3].filter fun e => evB5.nMinPix < e.npix).map Exposure.toProjection) ∧
    (expPix2 ∈ (buildAccepted evB5.nMinPix [expPix2, expPix3]).2.1 ↔
      expPix2 ∈ [expPix2, expPix3] ∧ evB5.nMinPix < expPix2.npix) ∧
    (expPix3 ∈ (buildAccepted evB5.nMinPix [expPix2, expPix3]).2.1 ↔
      expPix3 ∈ [expPix2, expPix3] ∧ evB5.nMinPix < expPix3.npix) :=
  ⟨(claim4_threshold_strict evB5 id [expPix2, expPix3]).1,
   (claim4_threshold_strict evB5 id [expPix2, expPix3]).2.2.2.2 expPix2,
   (claim4_threshold_strict evB5 id [expPix2, expPix3]).2.2.2.2 expPix3⟩

/-- Claim C5 witness: the slice partition property at a concrete frame set
with pixel counts 5 and 3 above threshold 2. -/
theorem claim5_witness :
    List.Chain' (fun a b : ℕ × ℕ => a.2 = b.1)
      (evB5.setExposureList id [expPix5, expPix3]).slices ∧
    List.Pairwise (fun a b : ℕ × ℕ => a.2 ≤ b.1)
      (evB5.setExposureList id [expPix5, expPix3]).slices ∧
    (∀ q ∈ (evB5.setExposureList id [expPix5, expPix3]).slices, q.1 ≤ q.2) ∧
    (∀ k : ℕ,
      (∃ q ∈ (evB5.setExposureList id [expPix5, expPix3]).slices, q.1 ≤ k ∧ k < q.2) ↔
        k < sumPix (evB5.setExposureList id [expPix5, expPix3]).projectionList) :=
  claim5_slices_partition evB5 id [expPix5, expPix3]

/-- Claim C6 witness: the flag bookkeeping of `computeModelImage` at the
concrete evaluator `evC1`. -/
theorem claim6_witness :
    ((evC1.computeModelImage).2.validProducts &&& MODEL_IMAGE ≠ 0) ∧
    ((evC1.computeModelImage).2.validProducts &&& LINEAR_PARAMETER_DERIVATIVE
        = evC1.validProducts &&& LINEAR_PARAMETER_DERIVATIVE) ∧
    ((evC1.computeModelImage).2.validProducts &&& NONLINEAR_PARAMETER_DERIVATIVE
        = evC1.validProducts &&& NONLINEAR_PARAMETER_DERIVATIVE) ∧
    ((evC1.computeModelImage).2.linearDerivative = evC1.linearDerivative) ∧
    ((evC1.computeModelImage).2.nonlinearDerivative = evC1.nonlinearDerivative) :=
  claim6_modelImage_sets_only_its_flag evC1

/-- Claim C8 witness: the analytic fitter result at a concrete evaluator,
strategy and error vector is unchanged by the diagnostic flag. -/
theorem claim8_witness :
    (MinuitAnalyticFitter.apply { polW with checkGradient := true } migW [] evC9 [1, 1]).1 =
    (MinuitAnalyticFitter.apply { polW with checkGradient := false } migW [] evC9 [1, 1]).1 :=
  claim8_checkGradient_no_effect polW migW [] evC9 [1, 1]

/-- Claim C10 witness: the snapshot behaviour at a concrete adapter over
`evC1`, a replaced data vector and a concrete parameter vector. -/
theorem claim10_witness :
    (∀ ev : ModelEvaluator, (ChisqFunction.construct ev).measured = ev.getWeightedData) ∧
    ((ChisqFunction.construct evC1).computeValue [1, 1, 1]).2.measured
        = (ChisqFunction.construct evC1).measured ∧
    ((ChisqFunction.construct evC1).computeGradient [1, 1, 1]).2.measured
        = (ChisqFunction.construct evC1).measured ∧
    (ChisqFunction.computeValue
        { ChisqFunction.construct evC1 with
            evaluator := { (ChisqFunction.construct evC1).evaluator with dataVector := [9] } }
        [1, 1, 1]).1
      = ((ChisqFunction.construct evC1).computeValue [1, 1, 1]).1 ∧
    (ChisqFunction.computeGradient
        { ChisqFunction.construct evC1 with
            evaluator := { (ChisqFunction.construct evC1).evaluator with dataVector := [9] } }
        [1, 1, 1]).1
      = ((ChisqFunction.construct evC1).computeGradient [1, 1, 1]).1 :=
  claim10_measured_snapshot (ChisqFunction.construct evC1) [9] [1, 1, 1]
